import Mathlib

set_option maxRecDepth 100000

/-!
Shallow embedding of the task-submission pipeline of `student_api/main.py`
and `llm_agent/generator.py`.

External collaborators (the code-generation backend, the GitHub API, the
git subprocesses, the evaluation callback) are modelled as oracles packed
into a `World`; every observable side effect of a run is recorded in a
trace of `Event`s.  Python exceptions are modelled with `Except PyExn`;
a handler that returns normally yields `Except.ok` carrying the JSON
response it returns, an uncaught exception yields `Except.error`.
-/

namespace StudentApi

/-- A JSON value, as far as the pipeline inspects one: the request fields
and the outbound payload only ever need null, strings and integers. -/
inductive JVal : Type
  | null : JVal
  | str : String → JVal
  | num : Int → JVal
  deriving DecidableEq, Repr

/-- Python `f"{v}"` rendering of a decoded JSON value. -/
def JVal.render : JVal → String
  | JVal.null => "None"
  | JVal.str s => s
  | JVal.num n => toString n

/-- Python `f"{v}"` rendering of an `os.getenv` result (`None` or a string). -/
def renderOpt : Option String → String
  | none => "None"
  | some s => s

/-- Python truthiness test `not x` on an `os.getenv` result: `None` and the
empty string are falsy (`generator.py` line 13 uses `not api_url or not api_key`). -/
def falsy : Option String → Bool
  | none => true
  | some s => s.isEmpty

/-- The parsed request body: each of the seven required keys may be absent.
Mirrors the `data` dict of `generate_app` restricted to the keys it reads. -/
structure ReqData : Type where
  email : Option JVal
  secret : Option JVal
  task : Option JVal
  round : Option JVal
  nonce : Option JVal
  brief : Option JVal
  evaluation_url : Option JVal
  deriving DecidableEq, Repr

/-- The required-field list, in the order `generate_app` line 107 checks it. -/
def reqFields : List String :=
  ["email", "secret", "task", "round", "nonce", "brief", "evaluation_url"]

/-- Look a required field up in the parsed body (`field in data`). -/
def getField (d : ReqData) : String → Option JVal
  | "email" => d.email
  | "secret" => d.secret
  | "task" => d.task
  | "round" => d.round
  | "nonce" => d.nonce
  | "brief" => d.brief
  | "evaluation_url" => d.evaluation_url
  | _ => none

/-- The first required field missing from the body, scanning in the fixed
order of `generate_app` line 107; `none` when all seven are present. -/
def firstMissing (d : ReqData) : Option String :=
  reqFields.find? (fun f => (getField d f).isNone)

/-- Python `data["secret"] != STUDENT_SECRET` (line 111), negated: the
decoded JSON value equals the environment string, where JSON `null` decodes
to Python `None` and an unset variable is `None`. -/
def secretMatches : JVal → Option String → Bool
  | JVal.null, none => true
  | JVal.str s, some t => s == t
  | _, _ => false

/-- Process environment read at module load (`main.py` lines 32-34 and
`generator.py` lines 10-11). -/
structure Config : Type where
  student_secret : Option String
  github_token : Option String
  github_username : Option String
  ai_pipe_api_url : Option String
  ai_pipe_api_key : Option String

/-- The code-generation backend's HTTP response: status, raw text, and the
`data["choices"][0]["message"]["content"]` field when extractable. -/
structure BackendResp : Type where
  status : Int
  text : String
  content : Option String

/-- A GitHub repository object as `init_git_and_push` uses it. -/
structure GhRepo : Type where
  clone_url : String
  deriving DecidableEq, Repr

/-- Outcome of one `requests.post` to the evaluation callback: a response
with a status code, or a raised exception. -/
inductive PostOutcome : Type
  | resp : Int → PostOutcome
  | exn : String → PostOutcome
  deriving DecidableEq, Repr

/-- `resp.status_code == 200` (`post_to_evaluation_url` line 86). -/
def PostOutcome.isSuccess : PostOutcome → Bool
  | PostOutcome.resp s => s == 200
  | PostOutcome.exn _ => false

/-- A Python exception escaping the handler. -/
inductive PyExn : Type
  | valueError : String → PyExn
  | runtimeError : String → PyExn
  | ghError : String → PyExn
  deriving DecidableEq, Repr

/-- The JSON dict a normal return of `generate_app` produces. -/
inductive Resp : Type
  | error : String → Resp
  | success : String → String → String → Resp
  deriving DecidableEq, Repr

/-- One observable side effect of a pipeline run. -/
inductive Event : Type
  | synth : String → Event
  | saveCode : String → String → Event
  | writeReadme : String → String → Event
  | writeLicense : String → Event
  | createRepo : String → Event
  | gitCmd : Nat → List String → Int → Event
  | enablePages : String → Event
  | post : String → String → Event
  | sleep : Nat → Event
  deriving DecidableEq, Repr

/-- Whether an event is a POST to the evaluation callback. -/
def Event.isPost : Event → Bool
  | Event.post _ _ => true
  | _ => false

/-- Behaviour of every external collaborator during one run. -/
structure World : Type where
  backend : BackendResp
  createRepo : Except String GhRepo
  gitExit : Nat → Int
  editPages : Except String Unit
  postOutcome : Nat → PostOutcome

/-- The prompt template of `generator.py` lines 16-23. -/
def full_prompt (prompt : String) : String :=
  "\n    You are an AI developer that writes fully working FastAPI apps.\n    Generate complete, minimal, and runnable Python code for:\n    " ++ prompt ++ "\n\n    Include all necessary imports and ensure the code runs with:\n        uvicorn app:app --reload\n    "

/-- Python `str.strip()`: drop leading and trailing whitespace. -/
def pyStrip (s : String) : String :=
  String.mk (((s.data.dropWhile Char.isWhitespace).reverse.dropWhile
    Char.isWhitespace).reverse)

/-- `generate_app_code` of `generator.py`: raises `ValueError` when the
backend configuration is falsy, `RuntimeError` on a non-200 status or a
response without an extractable content field, else returns the stripped
content.  The backend POST happens only after the configuration check. -/
def generate_app_code (cfg : Config) (resp : BackendResp) (prompt : String) :
    Except PyExn String × List Event :=
  if falsy cfg.ai_pipe_api_url || falsy cfg.ai_pipe_api_key then
    (Except.error (PyExn.valueError
      "Missing AI_PIPE_API_URL or AI_PIPE_API_KEY environment variables."), [])
  else
    let evs := [Event.synth (full_prompt prompt)]
    if resp.status != 200 then
      (Except.error (PyExn.runtimeError
        ("AI Pipe request failed: " ++ toString resp.status ++ " " ++ resp.text)), evs)
    else
      match resp.content with
      | none => (Except.error (PyExn.runtimeError
          ("Unexpected AI Pipe response: " ++ resp.text)), evs)
      | some c => (Except.ok (pyStrip c), evs)

/-- `save_code_to_file`: the folder and file path derived from the task. -/
def save_code_to_file (task : String) : String × String :=
  ("generated_app/" ++ task, "generated_app/" ++ task ++ "/app.py")

/-- `create_readme` (line 48). -/
def create_readme (task : String) (brief : String) : String :=
  "# " ++ task ++ "\n\n## Brief\n" ++ brief ++
  "\n\n## Usage\nRun:\n```\nuvicorn app:app --reload\n```\n"

/-- The fixed license text of `add_mit_license`. -/
def license_text : String :=
  "MIT License\n\nCopyright (c) 2025\n\nPermission is hereby granted, free of charge, to any person obtaining a copy...\n"

/-- The six git subprocess invocations of `init_git_and_push` lines 68-73,
with the exit code `subprocess.run` observed for each; the caller never
inspects the exit codes. -/
def gitEvents (w : World) (cloneUrl : String) : List Event :=
  [Event.gitCmd 0 ["git", "init"] (w.gitExit 0),
   Event.gitCmd 1 ["git", "add", "."] (w.gitExit 1),
   Event.gitCmd 2 ["git", "commit", "-m", "Initial commit"] (w.gitExit 2),
   Event.gitCmd 3 ["git", "branch", "-M", "main"] (w.gitExit 3),
   Event.gitCmd 4 ["git", "remote", "add", "origin", cloneUrl] (w.gitExit 4),
   Event.gitCmd 5 ["git", "push", "-u", "origin", "main"] (w.gitExit 5)]

/-- `init_git_and_push`: creates the GitHub repo (raising on failure), runs
the six git subprocesses with `subprocess.run` — their exit codes, supplied
by `w.gitExit`, are recorded in the trace but never inspected — enables
Pages (raising on failure), and returns `(clone_url, "main", pages_url)`. -/
def init_git_and_push (cfg : Config) (w : World) (repo_name : String) :
    Except PyExn (String × String × String) × List Event :=
  match w.createRepo with
  | Except.error e => (Except.error (PyExn.ghError e), [Event.createRepo repo_name])
  | Except.ok repo =>
    let gits := gitEvents w repo.clone_url
    match w.editPages with
    | Except.error e =>
      (Except.error (PyExn.ghError e),
       Event.createRepo repo_name :: gits ++ [Event.enablePages repo_name])
    | Except.ok _ =>
      let pages_url :=
        "https://" ++ renderOpt cfg.github_username ++ ".github.io/" ++ repo_name ++ "/"
      (Except.ok (repo.clone_url, "main", pages_url),
       Event.createRepo repo_name :: gits ++ [Event.enablePages repo_name])

/-- The retry schedule `retries = [1,2,4,8]` of `post_to_evaluation_url`. -/
def retries : List Nat := [1, 2, 4, 8]

/-- The retry loop body of `post_to_evaluation_url`: one POST per schedule
entry; a 200 response returns `true` at once, any other response or an
exception falls through to `time.sleep(r)` and the next attempt. -/
def postLoop (outcome : Nat → PostOutcome) (url : String) (body : String) :
    List Nat → Nat → Bool × List Event
  | [], _ => (false, [])
  | r :: rs, i =>
    if (outcome i).isSuccess then
      (true, [Event.post url body])
    else
      let rest := postLoop outcome url body rs (i + 1)
      (rest.1, Event.post url body :: Event.sleep r :: rest.2)

/-- `post_to_evaluation_url`: at most four POSTs of the same body, sleeping
1, 2, 4, 8 after each failed attempt; `false` when the schedule runs out. -/
def post_to_evaluation_url (outcome : Nat → PostOutcome) (body : String)
    (url : String) : Bool × List Event :=
  postLoop outcome url body retries 0

/-- The payload dict built at `main.py` lines 135-143. -/
structure Payload : Type where
  email : JVal
  task : JVal
  round : JVal
  nonce : JVal
  repo_url : String
  commit_sha : String
  pages_url : String
  deriving DecidableEq, Repr

/-- JSON serialization of one payload value. -/
def jsonOfJVal : JVal → String
  | JVal.null => "null"
  | JVal.str s => "\"" ++ s ++ "\""
  | JVal.num n => toString n

/-- The serialized notice body `requests.post(url, json=data, ...)` sends. -/
def serializePayload (p : Payload) : String :=
  "\x7b\"email\": " ++ jsonOfJVal p.email ++
  ", \"task\": " ++ jsonOfJVal p.task ++
  ", \"round\": " ++ jsonOfJVal p.round ++
  ", \"nonce\": " ++ jsonOfJVal p.nonce ++
  ", \"repo_url\": \"" ++ p.repo_url ++
  "\", \"commit_sha\": \"" ++ p.commit_sha ++
  "\", \"pages_url\": \"" ++ p.pages_url ++ "\"\x7d"

/-- The payload built from the request and the publication result. -/
def mkPayload (d : ReqData) (repo_url commit_sha pages_url : String) : Payload :=
  { email := (d.email).getD JVal.null
    task := (d.task).getD JVal.null
    round := (d.round).getD JVal.null
    nonce := (d.nonce).getD JVal.null
    repo_url := repo_url
    commit_sha := commit_sha
    pages_url := pages_url }

/-- The post-validation part of `generate_app` (lines 114-150): synthesis,
local staging, publication, notification.  Exceptions raised by synthesis
or by the GitHub API calls propagate; git exit codes are never checked. -/
def handleValid (cfg : Config) (w : World) (d : ReqData) :
    Except PyExn Resp × List Event :=
  let task := JVal.render ((d.task).getD JVal.null)
  let brief := JVal.render ((d.brief).getD JVal.null)
  match generate_app_code cfg w.backend brief with
  | (Except.error e, sevs) => (Except.error e, sevs)
  | (Except.ok code, sevs) =>
    let folder := (save_code_to_file task).1
    let staged := sevs ++
      [Event.saveCode task code,
       Event.writeReadme task (create_readme task brief),
       Event.writeLicense folder]
    match init_git_and_push cfg w task with
    | (Except.error e, pevs) => (Except.error e, staged ++ pevs)
    | (Except.ok (repo_url, commit_sha, pages_url), pevs) =>
      let pl := mkPayload d repo_url commit_sha pages_url
      let url := JVal.render ((d.evaluation_url).getD JVal.null)
      let posted := post_to_evaluation_url w.postOutcome (serializePayload pl) url
      let trace := staged ++ pevs ++ posted.2
      if posted.1 then
        (Except.ok (Resp.success "Task completed successfully" repo_url pages_url), trace)
      else
        (Except.ok (Resp.error "Failed to post to evaluation_url after retries"), trace)

/-- The `/generate-app/` handler `generate_app`: JSON parsing (its failure
modelled as `Except.error` carrying the exception text), required-field
check in the fixed order, secret check, then the pipeline. -/
def generate_app (cfg : Config) (w : World) (body : Except String ReqData) :
    Except PyExn Resp × List Event :=
  match body with
  | Except.error e => (Except.ok (Resp.error ("Invalid JSON: " ++ e)), [])
  | Except.ok d =>
    match firstMissing d with
    | some f => (Except.ok (Resp.error ("Missing field: " ++ f)), [])
    | none =>
      if secretMatches ((d.secret).getD JVal.null) cfg.student_secret then
        handleValid cfg w d
      else
        (Except.ok (Resp.error "Invalid secret"), [])

/-!  Concrete fixtures used by counterexamples and witnesses. -/

/-- A fully populated environment configuration. -/
def cfgX : Config :=
  { student_secret := some "S"
    github_token := some "tok"
    github_username := some "u"
    ai_pipe_api_url := some "https://aipipe.example/v1"
    ai_pipe_api_key := some "K" }

/-- `cfgX` with the generation-backend URL unset. -/
def cfgNoAI : Config := { cfgX with ai_pipe_api_url := none }

/-- `cfgX` with the shared secret unset in the environment. -/
def cfgNoSecret : Config := { cfgX with student_secret := none }

/-- The end-to-end scenario request of spec §8. -/
def dX : ReqData :=
  { email := some (JVal.str "a@b.com")
    secret := some (JVal.str "S")
    task := some (JVal.str "demo1")
    round := some (JVal.num 1)
    nonce := some (JVal.str "n1")
    brief := some (JVal.str "a hello-world API")
    evaluation_url := some (JVal.str "http://eval/cb") }

/-- The source text the synthesis backend returns in the fixtures. -/
def codeX : String := "from fastapi import FastAPI\napp = FastAPI()"

/-- A synthesis backend that answers 200 with extractable content. -/
def backendOK : BackendResp := { status := 200, text := "ok", content := some codeX }

/-- The hosting collaborator's repository object for `demo1`. -/
def repoX : GhRepo := { clone_url := "https://github.com/u/demo1" }

/-- A world in which every collaborator succeeds at once. -/
def wOK : World :=
  { backend := backendOK
    createRepo := Except.ok repoX
    gitExit := fun _ => 0
    editPages := Except.ok ()
    postOutcome := fun _ => PostOutcome.resp 200 }

/-- `wOK` except the `git push` subprocess exits with code 1. -/
def wPushFail : World := { wOK with gitExit := fun i => if i == 5 then 1 else 0 }

/-- `wOK` except repository creation fails (name collision). -/
def wNoRepo : World := { wOK with createRepo := Except.error "422 name already exists" }

/-- `wOK` except every POST to the evaluation callback answers 500. -/
def wPostFail : World := { wOK with postOutcome := fun _ => PostOutcome.resp 500 }

/-- `wOK` except enabling GitHub Pages fails. -/
def wNoPages : World := { wOK with editPages := Except.error "Pages API error" }

/-!  Helper lemmas shared by several claims. -/

/-- If every attempt of the window fails, the loop posts once per schedule
entry, sleeps after each failed attempt, and returns `false`. -/
theorem postLoop_all_fail (outcome : Nat → PostOutcome) (url body : String) :
    ∀ (rs : List Nat) (i : Nat),
      (∀ j, j < i + rs.length → (outcome j).isSuccess = false) →
      postLoop outcome url body rs i =
        (false, rs.flatMap fun r => [Event.post url body, Event.sleep r]) := by
  intro rs
  induction rs with
  | nil => intro i h; rfl
  | cons r rs ih =>
    intro i h
    have h0 : (outcome i).isSuccess = false := h i (by simp)
    have h1 := ih (i + 1) (fun j hj => h j (by simp at hj ⊢; omega))
    simp [postLoop, h0, h1]

/-- Every POST event the retry loop emits carries the fixed url and body. -/
theorem postLoop_post_mem (outcome : Nat → PostOutcome) (url body : String) :
    ∀ (rs : List Nat) (i : Nat) (u b : String),
      Event.post u b ∈ (postLoop outcome url body rs i).2 → u = url ∧ b = body := by
  intro rs
  induction rs with
  | nil => intro i u b h; simp [postLoop] at h
  | cons r rs ih =>
    intro i u b h
    by_cases hs : (outcome i).isSuccess
    · simp [postLoop, hs] at h
      exact h
    · simp [postLoop, hs] at h
      rcases h with h | h
      · exact h
      · exact ih (i + 1) u b h

/-- The pipeline's result component never depends on the git subprocess
exit codes: they are recorded in the trace only. -/
theorem handleValid_ignores_gitExit (cfg : Config) (w : World) (g : Nat → Int)
    (d : ReqData) :
    (handleValid cfg { w with gitExit := g } d).1 = (handleValid cfg w d).1 := by
  cases hsyn : generate_app_code cfg w.backend
      (JVal.render ((d.brief).getD JVal.null)) with
  | mk r sevs =>
    cases r with
    | error e => simp [handleValid, hsyn]
    | ok code =>
      cases hrepo : w.createRepo with
      | error e => simp [handleValid, hsyn, init_git_and_push, hrepo]
      | ok repo =>
        cases hpages : w.editPages with
        | error e => simp [handleValid, hsyn, init_git_and_push, hrepo, hpages]
        | ok u =>
          simp only [handleValid, hsyn, init_git_and_push, hrepo, hpages]
          split <;> rfl

/-- The handler's result component is independent of the git subprocess
exit codes for every request body: a failed push is silently ignored. -/
theorem generate_app_ignores_gitExit (cfg : Config) (w : World) (g : Nat → Int)
    (body : Except String ReqData) :
    (generate_app cfg { w with gitExit := g } body).1 =
      (generate_app cfg w body).1 := by
  cases body with
  | error e => rfl
  | ok d =>
    cases h1 : firstMissing d with
    | some f => simp [generate_app, h1]
    | none =>
      cases h2 : secretMatches ((d.secret).getD JVal.null) cfg.student_secret with
      | false => simp [generate_app, h1, h2]
      | true => simpa [generate_app, h1, h2] using
          handleValid_ignores_gitExit cfg w g d

/-- A failure of either GitHub API call — repository creation or Pages
enabling — makes the handler's result the propagated exception, with no
POST to the evaluation callback anywhere in the trace. -/
theorem gh_failure_propagates (cfg : Config) (w : World) (d : ReqData)
    (code p e : String)
    (h1 : firstMissing d = none)
    (h2 : secretMatches ((d.secret).getD JVal.null) cfg.student_secret = true)
    (h3 : generate_app_code cfg w.backend (JVal.render ((d.brief).getD JVal.null)) =
      (Except.ok code, [Event.synth p]))
    (h4 : w.createRepo = Except.error e ∨
      ((∃ repo, w.createRepo = Except.ok repo) ∧ w.editPages = Except.error e)) :
    (generate_app cfg w (Except.ok d)).1 = Except.error (PyExn.ghError e) ∧
    ∀ ev ∈ (generate_app cfg w (Except.ok d)).2, ev.isPost = false := by
  rcases h4 with h4 | ⟨⟨repo, hrepo⟩, hpages⟩
  · have hmain : generate_app cfg w (Except.ok d) =
        (Except.error (PyExn.ghError e),
         [Event.synth p,
          Event.saveCode (JVal.render ((d.task).getD JVal.null)) code,
          Event.writeReadme (JVal.render ((d.task).getD JVal.null))
            (create_readme (JVal.render ((d.task).getD JVal.null))
              (JVal.render ((d.brief).getD JVal.null))),
          Event.writeLicense ("generated_app/" ++ JVal.render ((d.task).getD JVal.null)),
          Event.createRepo (JVal.render ((d.task).getD JVal.null))]) := by
      simp [generate_app, h1, h2, handleValid, h3, save_code_to_file,
        init_git_and_push, h4]
    refine ⟨by rw [hmain], ?_⟩
    rw [hmain]
    intro ev hev
    simp only [List.mem_cons, List.not_mem_nil, or_false] at hev
    rcases hev with h | h | h | h | h <;> subst h <;> rfl
  · have hmain : generate_app cfg w (Except.ok d) =
        (Except.error (PyExn.ghError e),
         [Event.synth p,
          Event.saveCode (JVal.render ((d.task).getD JVal.null)) code,
          Event.writeReadme (JVal.render ((d.task).getD JVal.null))
            (create_readme (JVal.render ((d.task).getD JVal.null))
              (JVal.render ((d.brief).getD JVal.null))),
          Event.writeLicense ("generated_app/" ++ JVal.render ((d.task).getD JVal.null)),
          Event.createRepo (JVal.render ((d.task).getD JVal.null)),
          Event.gitCmd 0 ["git", "init"] (w.gitExit 0),
          Event.gitCmd 1 ["git", "add", "."] (w.gitExit 1),
          Event.gitCmd 2 ["git", "commit", "-m", "Initial commit"] (w.gitExit 2),
          Event.gitCmd 3 ["git", "branch", "-M", "main"] (w.gitExit 3),
          Event.gitCmd 4 ["git", "remote", "add", "origin", repo.clone_url] (w.gitExit 4),
          Event.gitCmd 5 ["git", "push", "-u", "origin", "main"] (w.gitExit 5),
          Event.enablePages (JVal.render ((d.task).getD JVal.null))]) := by
      simp [generate_app, h1, h2, handleValid, h3, save_code_to_file,
        init_git_and_push, hrepo, hpages, gitEvents]
    refine ⟨by rw [hmain], ?_⟩
    rw [hmain]
    intro ev hev
    simp only [List.mem_cons, List.not_mem_nil, or_false] at hev
    rcases hev with h | h | h | h | h | h | h | h | h | h | h | h <;>
      subst h <;> rfl

/-- Rendering a decoded JSON string is the string itself. -/
theorem render_str (s : String) : JVal.render (JVal.str s) = s := rfl

/-- Rendering a present environment variable is its value. -/
theorem renderOpt_some (s : String) : renderOpt (some s) = s := rfl

/-!  Claims. -/

/-- C2: for every request missing any one of the seven required fields,
`generate_app` returns a field-specific `Missing field` error — naming a
field that is indeed absent — and the side-effect trace is empty: no
synthesis, storage, publication or notification call happens. -/
theorem c2_validation_completeness (cfg : Config) (w : World) (d : ReqData)
    (f : String) (hf : f ∈ reqFields) (hm : getField d f = none) :
    ∃ f0, getField d f0 = none ∧
      generate_app cfg w (Except.ok d) =
        (Except.ok (Resp.error ("Missing field: " ++ f0)), []) := by
  have hsome : (firstMissing d).isSome := by
    rw [firstMissing, List.find?_isSome]
    exact ⟨f, hf, by simp [hm]⟩
  obtain ⟨f0, h1⟩ := Option.isSome_iff_exists.mp hsome
  have h2 : (getField d f0).isNone = true := by
    have := List.find?_some (by rw [firstMissing] at h1; exact h1)
    simpa using this
  refine ⟨f0, Option.isNone_iff_eq_none.mp h2, ?_⟩
  simp only [generate_app, h1]

/-- C2 witness: the scenario request with its `secret` key deleted is
rejected with a field-specific error and an empty trace. -/
theorem c2_validation_completeness_witness :
    ∃ f0, getField { dX with secret := none } f0 = none ∧
      generate_app cfgX wOK (Except.ok { dX with secret := none }) =
        (Except.ok (Resp.error ("Missing field: " ++ f0)), []) :=
  c2_validation_completeness cfgX wOK { dX with secret := none } "secret"
    (by decide) rfl

/-- C6: a request with all seven fields present whose secret does not
match the configured shared secret is answered with the `Invalid secret`
error and an empty side-effect trace. -/
theorem c6_wrong_secret_rejected (cfg : Config) (w : World) (d : ReqData)
    (hall : firstMissing d = none)
    (hsec : secretMatches ((d.secret).getD JVal.null) cfg.student_secret = false) :
    generate_app cfg w (Except.ok d) = (Except.ok (Resp.error "Invalid secret"), []) := by
  simp only [generate_app, hall, hsec]
  simp

/-- C6 witness: the scenario request with secret `WRONG` against the
configured secret `S` is rejected with no side effects. -/
theorem c6_wrong_secret_rejected_witness :
    generate_app cfgX wOK (Except.ok { dX with secret := some (JVal.str "WRONG") }) =
      (Except.ok (Resp.error "Invalid secret"), []) :=
  c6_wrong_secret_rejected cfgX wOK { dX with secret := some (JVal.str "WRONG") }
    rfl rfl

/-- C9: the secret check is the plain Python comparison
`data["secret"] != STUDENT_SECRET` with no presence check on the
configuration: with the environment variable unset, a request whose
`secret` field is JSON null passes the check (the handler proceeds into
the pipeline), while every request carrying a string secret is rejected. -/
theorem c9_unset_secret_semantics (cfg : Config) (w : World)
    (hc : cfg.student_secret = none) :
    (∀ d : ReqData, firstMissing d = none → d.secret = some JVal.null →
      generate_app cfg w (Except.ok d) = handleValid cfg w d) ∧
    (∀ (d : ReqData) (s : String), firstMissing d = none →
      d.secret = some (JVal.str s) →
      generate_app cfg w (Except.ok d) =
        (Except.ok (Resp.error "Invalid secret"), [])) := by
  constructor
  · intro d h1 h2
    simp [generate_app, h1, h2, hc, secretMatches]
  · intro d s h1 h2
    simp [generate_app, h1, h2, hc, secretMatches]

/-- C9 witness: with the environment secret unset, the scenario request
with a null secret proceeds into the pipeline, and the same request with
the string secret `S` is rejected. -/
theorem c9_unset_secret_semantics_witness :
    generate_app cfgNoSecret wOK (Except.ok { dX with secret := some JVal.null }) =
        handleValid cfgNoSecret wOK { dX with secret := some JVal.null } ∧
    generate_app cfgNoSecret wOK (Except.ok dX) =
        (Except.ok (Resp.error "Invalid secret"), []) :=
  ⟨(c9_unset_secret_semantics cfgNoSecret wOK rfl).1
      { dX with secret := some JVal.null } rfl rfl,
   (c9_unset_secret_semantics cfgNoSecret wOK rfl).2 dX "S" rfl rfl⟩

/-- C10: a request whose body is not parseable as JSON is answered with an
`Invalid JSON` error and an empty trace; the required-field check scans
the seven fields in the fixed order email, secret, task, round, nonce,
brief, evaluation_url, and the error names the first missing field in
that order. -/
theorem c10_invalid_json_and_field_order :
    (∀ (cfg : Config) (w : World) (e : String),
        generate_app cfg w (Except.error e) =
          (Except.ok (Resp.error ("Invalid JSON: " ++ e)), [])) ∧
    (∀ (cfg : Config) (w : World) (d : ReqData) (f : String),
        firstMissing d = some f →
          generate_app cfg w (Except.ok d) =
            (Except.ok (Resp.error ("Missing field: " ++ f)), [])) ∧
    (∀ d : ReqData, firstMissing d =
        if (d.email).isNone then some "email"
        else if (d.secret).isNone then some "secret"
        else if (d.task).isNone then some "task"
        else if (d.round).isNone then some "round"
        else if (d.nonce).isNone then some "nonce"
        else if (d.brief).isNone then some "brief"
        else if (d.evaluation_url).isNone then some "evaluation_url"
        else none) := by
  refine ⟨fun cfg w e => rfl,
          fun cfg w d f h => by simp only [generate_app, h],
          fun d => ?_⟩
  rcases d with ⟨e, s, t, r, n, b, u⟩
  cases e <;> cases s <;> cases t <;> cases r <;> cases n <;> cases b <;>
    cases u <;> rfl

/-- C10 witness: an unparseable body yields the `Invalid JSON` error, and
the request missing both `round` and `brief` is answered naming `round`,
the first of the two in the fixed order. -/
theorem c10_invalid_json_and_field_order_witness :
    generate_app cfgX wOK (Except.error "Expecting value") =
        (Except.ok (Resp.error "Invalid JSON: Expecting value"), []) ∧
    generate_app cfgX wOK (Except.ok { dX with round := none, brief := none }) =
        (Except.ok (Resp.error "Missing field: round"), []) :=
  ⟨c10_invalid_json_and_field_order.1 cfgX wOK "Expecting value",
   c10_invalid_json_and_field_order.2.1 cfgX wOK
     { dX with round := none, brief := none } "round" rfl⟩

/-- C3: against a callback that always fails, the dispatcher makes exactly
4 POST attempts, sleeping 1, 2, 4, 8 time-units after each failed attempt
before the next, then returns `false`; against a callback that succeeds on
the 3rd attempt, exactly 3 attempts occur, only the sleeps 1 and 2 are
observed, and no further attempt or sleep follows. -/
theorem c3_retry_schedule :
    (∀ (outcome : Nat → PostOutcome) (body url : String),
        (∀ i, i < 4 → (outcome i).isSuccess = false) →
        post_to_evaluation_url outcome body url =
          (false,
           [Event.post url body, Event.sleep 1, Event.post url body, Event.sleep 2,
            Event.post url body, Event.sleep 4, Event.post url body, Event.sleep 8])) ∧
    (∀ (outcome : Nat → PostOutcome) (body url : String),
        (outcome 0).isSuccess = false → (outcome 1).isSuccess = false →
        (outcome 2).isSuccess = true →
        post_to_evaluation_url outcome body url =
          (true,
           [Event.post url body, Event.sleep 1, Event.post url body, Event.sleep 2,
            Event.post url body])) := by
  constructor
  · intro outcome body url h
    have h4 : ∀ j, j < 0 + retries.length → (outcome j).isSuccess = false := by
      intro j hj
      exact h j (by simpa [retries] using hj)
    have := postLoop_all_fail outcome url body retries 0 h4
    simpa [post_to_evaluation_url, retries] using this
  · intro outcome body url h0 h1 h2
    simp [post_to_evaluation_url, retries, postLoop, h0, h1, h2]

/-- C3 witness: a callback answering 500 forever takes all four attempts
and the four sleeps and fails; a callback answering 200 first on the third
attempt takes three attempts and the sleeps 1 and 2 and succeeds. -/
theorem c3_retry_schedule_witness :
    post_to_evaluation_url (fun _ => PostOutcome.resp 500) "b" "http://eval/cb" =
      (false,
       [Event.post "http://eval/cb" "b", Event.sleep 1,
        Event.post "http://eval/cb" "b", Event.sleep 2,
        Event.post "http://eval/cb" "b", Event.sleep 4,
        Event.post "http://eval/cb" "b", Event.sleep 8]) ∧
    post_to_evaluation_url
        (fun i => if i == 2 then PostOutcome.resp 200 else PostOutcome.resp 500)
        "b" "http://eval/cb" =
      (true,
       [Event.post "http://eval/cb" "b", Event.sleep 1,
        Event.post "http://eval/cb" "b", Event.sleep 2,
        Event.post "http://eval/cb" "b"]) :=
  ⟨c3_retry_schedule.1 (fun _ => PostOutcome.resp 500) "b" "http://eval/cb"
     (fun _ _ => rfl),
   c3_retry_schedule.2
     (fun i => if i == 2 then PostOutcome.resp 200 else PostOutcome.resp 500)
     "b" "http://eval/cb" rfl rfl rfl⟩

/-- C8: within one run of the dispatcher every notification attempt
carries the byte-identical serialized notice body (and targets the same
url): any two POST events of the run's trace have equal bodies, namely the
serialization of the one payload built from email, task, round, nonce,
repo_url, commit_sha and pages_url. -/
theorem c8_idempotent_notice_content (outcome : Nat → PostOutcome)
    (p : Payload) (url : String) (u1 b1 u2 b2 : String)
    (h1 : Event.post u1 b1 ∈ (post_to_evaluation_url outcome (serializePayload p) url).2)
    (h2 : Event.post u2 b2 ∈ (post_to_evaluation_url outcome (serializePayload p) url).2) :
    b1 = b2 ∧ u1 = u2 := by
  obtain ⟨hu1, hb1⟩ :=
    postLoop_post_mem outcome url (serializePayload p) retries 0 u1 b1 h1
  obtain ⟨hu2, hb2⟩ :=
    postLoop_post_mem outcome url (serializePayload p) retries 0 u2 b2 h2
  subst hu1; subst hb1; subst hu2; subst hb2
  exact ⟨rfl, rfl⟩

/-- The notice payload of the end-to-end scenario. -/
def plX : Payload :=
  mkPayload dX "https://github.com/u/demo1" "main" "https://u.github.io/demo1/"

/-- C8 witness: in the always-failing run for the scenario payload, two
POST attempts of the trace are compared and carry the same body and url. -/
theorem c8_idempotent_notice_content_witness :
    serializePayload plX = serializePayload plX ∧
      "http://eval/cb" = "http://eval/cb" :=
  c8_idempotent_notice_content (fun _ => PostOutcome.resp 500) plX
    "http://eval/cb" "http://eval/cb" (serializePayload plX)
    "http://eval/cb" (serializePayload plX) (by decide) (by decide)

/-- C7: for a valid request with task `demo1` and nonce `n1`, a synthesis
backend returning valid source and a hosting backend that succeeds (first
POST answered 200), the handler returns the success message with the
repository clone url and `https://<user>.github.io/demo1/`, and the trace
holds exactly one POST to the evaluation callback, whose payload carries
nonce `n1`. -/
theorem c7_end_to_end (cfg : Config) (w : World) (d : ReqData)
    (code p user : String) (repo : GhRepo)
    (hfields : firstMissing d = none)
    (hsec : secretMatches ((d.secret).getD JVal.null) cfg.student_secret = true)
    (hsyn : generate_app_code cfg w.backend (JVal.render ((d.brief).getD JVal.null)) =
      (Except.ok code, [Event.synth p]))
    (hrepo : w.createRepo = Except.ok repo)
    (hpages : w.editPages = Except.ok ())
    (huser : cfg.github_username = some user)
    (hpost : (w.postOutcome 0).isSuccess = true)
    (htask : d.task = some (JVal.str "demo1"))
    (hnonce : d.nonce = some (JVal.str "n1")) :
    generate_app cfg w (Except.ok d) =
      (Except.ok (Resp.success "Task completed successfully" repo.clone_url
        ("https://" ++ user ++ ".github.io/" ++ "demo1" ++ "/")),
       [Event.synth p,
        Event.saveCode "demo1" code,
        Event.writeReadme "demo1"
          (create_readme "demo1" (JVal.render ((d.brief).getD JVal.null))),
        Event.writeLicense "generated_app/demo1",
        Event.createRepo "demo1",
        Event.gitCmd 0 ["git", "init"] (w.gitExit 0),
        Event.gitCmd 1 ["git", "add", "."] (w.gitExit 1),
        Event.gitCmd 2 ["git", "commit", "-m", "Initial commit"] (w.gitExit 2),
        Event.gitCmd 3 ["git", "branch", "-M", "main"] (w.gitExit 3),
        Event.gitCmd 4 ["git", "remote", "add", "origin", repo.clone_url] (w.gitExit 4),
        Event.gitCmd 5 ["git", "push", "-u", "origin", "main"] (w.gitExit 5),
        Event.enablePages "demo1",
        Event.post (JVal.render ((d.evaluation_url).getD JVal.null))
          (serializePayload (mkPayload d repo.clone_url "main"
            ("https://" ++ user ++ ".github.io/" ++ "demo1" ++ "/")))]) ∧
    ((generate_app cfg w (Except.ok d)).2.filter Event.isPost) =
      [Event.post (JVal.render ((d.evaluation_url).getD JVal.null))
        (serializePayload (mkPayload d repo.clone_url "main"
          ("https://" ++ user ++ ".github.io/" ++ "demo1" ++ "/")))] ∧
    (mkPayload d repo.clone_url "main"
      ("https://" ++ user ++ ".github.io/" ++ "demo1" ++ "/")).nonce =
        JVal.str "n1" := by
  have hmain : generate_app cfg w (Except.ok d) =
      (Except.ok (Resp.success "Task completed successfully" repo.clone_url
        ("https://" ++ user ++ ".github.io/" ++ "demo1" ++ "/")),
       [Event.synth p,
        Event.saveCode "demo1" code,
        Event.writeReadme "demo1"
          (create_readme "demo1" (JVal.render ((d.brief).getD JVal.null))),
        Event.writeLicense "generated_app/demo1",
        Event.createRepo "demo1",
        Event.gitCmd 0 ["git", "init"] (w.gitExit 0),
        Event.gitCmd 1 ["git", "add", "."] (w.gitExit 1),
        Event.gitCmd 2 ["git", "commit", "-m", "Initial commit"] (w.gitExit 2),
        Event.gitCmd 3 ["git", "branch", "-M", "main"] (w.gitExit 3),
        Event.gitCmd 4 ["git", "remote", "add", "origin", repo.clone_url] (w.gitExit 4),
        Event.gitCmd 5 ["git", "push", "-u", "origin", "main"] (w.gitExit 5),
        Event.enablePages "demo1",
        Event.post (JVal.render ((d.evaluation_url).getD JVal.null))
          (serializePayload (mkPayload d repo.clone_url "main"
            ("https://" ++ user ++ ".github.io/" ++ "demo1" ++ "/")))]) := by
    simp [generate_app, hfields, hsec, handleValid, htask, render_str, hsyn,
      save_code_to_file, init_git_and_push, hrepo, hpages, huser, renderOpt_some,
      gitEvents, post_to_evaluation_url, retries, postLoop, hpost]
  refine ⟨hmain, ?_, by simp [mkPayload, hnonce]⟩
  rw [hmain]
  simp [Event.isPost, List.filter]

/-- C7 witness: the spec §8 end-to-end scenario evaluated concretely. -/
theorem c7_end_to_end_witness :
    generate_app cfgX wOK (Except.ok dX) =
      (Except.ok (Resp.success "Task completed successfully"
        "https://github.com/u/demo1" "https://u.github.io/demo1/"),
       [Event.synth (full_prompt "a hello-world API"),
        Event.saveCode "demo1" codeX,
        Event.writeReadme "demo1" (create_readme "demo1" "a hello-world API"),
        Event.writeLicense "generated_app/demo1",
        Event.createRepo "demo1",
        Event.gitCmd 0 ["git", "init"] 0,
        Event.gitCmd 1 ["git", "add", "."] 0,
        Event.gitCmd 2 ["git", "commit", "-m", "Initial commit"] 0,
        Event.gitCmd 3 ["git", "branch", "-M", "main"] 0,
        Event.gitCmd 4 ["git", "remote", "add", "origin", "https://github.com/u/demo1"] 0,
        Event.gitCmd 5 ["git", "push", "-u", "origin", "main"] 0,
        Event.enablePages "demo1",
        Event.post "http://eval/cb" (serializePayload plX)]) ∧
    ((generate_app cfgX wOK (Except.ok dX)).2.filter Event.isPost) =
      [Event.post "http://eval/cb" (serializePayload plX)] ∧
    plX.nonce = JVal.str "n1" :=
  c7_end_to_end cfgX wOK dX codeX (full_prompt "a hello-world API") "u" repoX
    rfl rfl rfl rfl rfl rfl rfl rfl rfl

/-- C5: when publication has succeeded and all four notification attempts
fail, the handler still returns normally — with the distinct error message
`Failed to post to evaluation_url after retries`, not a propagated
exception — and the trace retains the publication events (repository
creation and the push); nothing undoes the publication. -/
theorem c5_notification_soft_failure (cfg : Config) (w : World) (d : ReqData)
    (code p : String) (repo : GhRepo)
    (hfields : firstMissing d = none)
    (hsec : secretMatches ((d.secret).getD JVal.null) cfg.student_secret = true)
    (hsyn : generate_app_code cfg w.backend (JVal.render ((d.brief).getD JVal.null)) =
      (Except.ok code, [Event.synth p]))
    (hrepo : w.createRepo = Except.ok repo)
    (hpages : w.editPages = Except.ok ())
    (hpost : ∀ i, (w.postOutcome i).isSuccess = false) :
    (generate_app cfg w (Except.ok d)).1 =
      Except.ok (Resp.error "Failed to post to evaluation_url after retries") ∧
    Event.createRepo (JVal.render ((d.task).getD JVal.null)) ∈
      (generate_app cfg w (Except.ok d)).2 ∧
    Event.gitCmd 5 ["git", "push", "-u", "origin", "main"] (w.gitExit 5) ∈
      (generate_app cfg w (Except.ok d)).2 := by
  have hfail := postLoop_all_fail w.postOutcome
    (JVal.render ((d.evaluation_url).getD JVal.null))
    (serializePayload (mkPayload d repo.clone_url "main"
      ("https://" ++ renderOpt cfg.github_username ++ ".github.io/" ++
        JVal.render ((d.task).getD JVal.null) ++ "/")))
    retries 0 (fun j _ => hpost j)
  refine ⟨?_, ?_, ?_⟩ <;>
    simp [generate_app, hfields, hsec, handleValid, hsyn, save_code_to_file,
      init_git_and_push, hrepo, hpages, gitEvents, post_to_evaluation_url,
      hfail]

/-- C5 witness: the scenario run against an always-500 callback returns
the notification-failure error while the publication events remain. -/
theorem c5_notification_soft_failure_witness :
    (generate_app cfgX wPostFail (Except.ok dX)).1 =
      Except.ok (Resp.error "Failed to post to evaluation_url after retries") ∧
    Event.createRepo "demo1" ∈ (generate_app cfgX wPostFail (Except.ok dX)).2 ∧
    Event.gitCmd 5 ["git", "push", "-u", "origin", "main"] 0 ∈
      (generate_app cfgX wPostFail (Except.ok dX)).2 :=
  c5_notification_soft_failure cfgX wPostFail dX codeX
    (full_prompt "a hello-world API") repoX rfl rfl rfl rfl rfl
    (fun _ => rfl)

/-- C1 counterexample: in the end-to-end scenario with the `git push`
subprocess exiting 1 (hosting push fails), the handler still returns the
success response — not an `error` response — and a POST to the evaluation
callback is attempted: the push failure is silently swallowed. -/
theorem c1_counterexample_push_ignored :
    (generate_app cfgX wPushFail (Except.ok dX)).1 =
      Except.ok (Resp.success "Task completed successfully"
        "https://github.com/u/demo1" "https://u.github.io/demo1/") ∧
    Event.gitCmd 5 ["git", "push", "-u", "origin", "main"] 1 ∈
      (generate_app cfgX wPushFail (Except.ok dX)).2 ∧
    (generate_app cfgX wPushFail (Except.ok dX)).2.any Event.isPost = true := by
  refine ⟨rfl, by decide, by decide⟩

/-- C1 amended: failures raised by either GitHub API call — repository
creation or Pages enabling — surface as propagated exceptions: the
handler's result is that exception (no `error` response is built) and no
POST to the evaluation callback appears in the trace; failures of the git
subprocess steps, including the push, are silently ignored: for every
configuration, world and request body the handler's result does not
depend on the subprocess exit codes at all. -/
theorem c1_amended_publication_failures :
    (∀ (cfg : Config) (w : World) (d : ReqData) (code p e : String),
        firstMissing d = none →
        secretMatches ((d.secret).getD JVal.null) cfg.student_secret = true →
        generate_app_code cfg w.backend (JVal.render ((d.brief).getD JVal.null)) =
          (Except.ok code, [Event.synth p]) →
        (w.createRepo = Except.error e ∨
          ((∃ repo, w.createRepo = Except.ok repo) ∧
            w.editPages = Except.error e)) →
        (generate_app cfg w (Except.ok d)).1 = Except.error (PyExn.ghError e) ∧
        ∀ ev ∈ (generate_app cfg w (Except.ok d)).2, ev.isPost = false) ∧
    (∀ (cfg : Config) (w : World) (g : Nat → Int) (body : Except String ReqData),
        (generate_app cfg { w with gitExit := g } body).1 =
          (generate_app cfg w body).1) :=
  ⟨fun cfg w d code p e h1 h2 h3 h4 =>
     gh_failure_propagates cfg w d code p e h1 h2 h3 h4,
   fun cfg w g body => generate_app_ignores_gitExit cfg w g body⟩

/-- C1 amended witness: a Pages-enabling failure at the scenario input
propagates with no POST; changing every git exit code to 7 leaves the
handler's result on the scenario request unchanged. -/
theorem c1_amended_publication_failures_witness :
    ((generate_app cfgX wNoPages (Except.ok dX)).1 =
        Except.error (PyExn.ghError "Pages API error") ∧
      ∀ ev ∈ (generate_app cfgX wNoPages (Except.ok dX)).2, ev.isPost = false) ∧
    (generate_app cfgX { wOK with gitExit := fun _ => 7 } (Except.ok dX)).1 =
      (generate_app cfgX wOK (Except.ok dX)).1 :=
  ⟨c1_amended_publication_failures.1 cfgX wNoPages dX codeX
     (full_prompt "a hello-world API") "Pages API error" rfl rfl rfl
     (Or.inr ⟨⟨repoX, rfl⟩, rfl⟩),
   c1_amended_publication_failures.2 cfgX wOK (fun _ => 7) (Except.ok dX)⟩

/-- C4 counterexample: with the generation-backend configuration missing,
the scenario request makes the handler propagate a `ValueError` — its
result is the exception, and for no message is it an `error` response. -/
theorem c4_counterexample_synthesis_exception :
    (generate_app cfgNoAI wOK (Except.ok dX)).1 =
      Except.error (PyExn.valueError
        "Missing AI_PIPE_API_URL or AI_PIPE_API_KEY environment variables.") ∧
    ∀ m : String, (generate_app cfgNoAI wOK (Except.ok dX)).1 ≠
      Except.ok (Resp.error m) := by
  refine ⟨rfl, ?_⟩
  intro m h
  rw [show (generate_app cfgNoAI wOK (Except.ok dX)).1 =
      Except.error (PyExn.valueError
        "Missing AI_PIPE_API_URL or AI_PIPE_API_KEY environment variables.")
    from rfl] at h
  exact Except.noConfusion h

/-- C4 amended: every failure is reflected in the result, but not
uniformly as `error` responses.  Invalid JSON, a missing required field
and a wrong secret each yield an `error` response with no side effect;
exhausted notification retries yield the `error` response on the
notification-failure message; a synthesis failure makes the handler's
result exactly the raised exception, and a GitHub-API publication failure
(repository creation or Pages enabling) likewise ends the run with the
propagated exception — neither is converted to an `error` response; git
subprocess failures are not reflected in the result at all. -/
theorem c4_amended_failures_reflected :
    (∀ (cfg : Config) (w : World) (e : String),
        generate_app cfg w (Except.error e) =
          (Except.ok (Resp.error ("Invalid JSON: " ++ e)), [])) ∧
    (∀ (cfg : Config) (w : World) (d : ReqData) (f : String),
        firstMissing d = some f →
        generate_app cfg w (Except.ok d) =
          (Except.ok (Resp.error ("Missing field: " ++ f)), [])) ∧
    (∀ (cfg : Config) (w : World) (d : ReqData),
        firstMissing d = none →
        secretMatches ((d.secret).getD JVal.null) cfg.student_secret = false →
        generate_app cfg w (Except.ok d) =
          (Except.ok (Resp.error "Invalid secret"), [])) ∧
    (∀ (cfg : Config) (w : World) (d : ReqData) (code p : String) (repo : GhRepo),
        firstMissing d = none →
        secretMatches ((d.secret).getD JVal.null) cfg.student_secret = true →
        generate_app_code cfg w.backend (JVal.render ((d.brief).getD JVal.null)) =
          (Except.ok code, [Event.synth p]) →
        w.createRepo = Except.ok repo →
        w.editPages = Except.ok () →
        (∀ i, (w.postOutcome i).isSuccess = false) →
        (generate_app cfg w (Except.ok d)).1 =
          Except.ok (Resp.error "Failed to post to evaluation_url after retries")) ∧
    (∀ (cfg : Config) (w : World) (d : ReqData) (exn : PyExn) (sevs : List Event),
        firstMissing d = none →
        secretMatches ((d.secret).getD JVal.null) cfg.student_secret = true →
        generate_app_code cfg w.backend (JVal.render ((d.brief).getD JVal.null)) =
          (Except.error exn, sevs) →
        generate_app cfg w (Except.ok d) = (Except.error exn, sevs)) ∧
    (∀ (cfg : Config) (w : World) (d : ReqData) (code p e : String),
        firstMissing d = none →
        secretMatches ((d.secret).getD JVal.null) cfg.student_secret = true →
        generate_app_code cfg w.backend (JVal.render ((d.brief).getD JVal.null)) =
          (Except.ok code, [Event.synth p]) →
        (w.createRepo = Except.error e ∨
          ((∃ repo, w.createRepo = Except.ok repo) ∧
            w.editPages = Except.error e)) →
        (generate_app cfg w (Except.ok d)).1 = Except.error (PyExn.ghError e)) ∧
    (∀ (cfg : Config) (w : World) (g : Nat → Int) (body : Except String ReqData),
        (generate_app cfg { w with gitExit := g } body).1 =
          (generate_app cfg w body).1) := by
  refine ⟨fun cfg w e => rfl,
          fun cfg w d f h => by simp only [generate_app, h],
          ?_, ?_, ?_, ?_, ?_⟩
  · intro cfg w d h1 h2
    simp only [generate_app, h1, h2]
    simp
  · intro cfg w d code p repo h1 h2 h3 h4 h5 hpost
    have hfail := postLoop_all_fail w.postOutcome
      (JVal.render ((d.evaluation_url).getD JVal.null))
      (serializePayload (mkPayload d repo.clone_url "main"
        ("https://" ++ renderOpt cfg.github_username ++ ".github.io/" ++
          JVal.render ((d.task).getD JVal.null) ++ "/")))
      retries 0 (fun j _ => hpost j)
    simp [generate_app, h1, h2, handleValid, h3, save_code_to_file,
      init_git_and_push, h4, h5, gitEvents, post_to_evaluation_url, hfail]
  · intro cfg w d exn sevs h1 h2 h3
    simp [generate_app, h1, h2, handleValid, h3]
  · intro cfg w d code p e h1 h2 h3 h4
    exact (gh_failure_propagates cfg w d code p e h1 h2 h3 h4).1
  · intro cfg w g body
    exact generate_app_ignores_gitExit cfg w g body

/-- C4 amended witness: at concrete inputs — a missing field, a wrong
secret, exhausted notification retries, the missing-configuration
synthesis failure and a repository-creation failure — the handler
returns the respective `error` response or propagated exception. -/
theorem c4_amended_failures_reflected_witness :
    generate_app cfgX wOK (Except.ok { dX with round := none }) =
        (Except.ok (Resp.error "Missing field: round"), []) ∧
    generate_app cfgX wOK (Except.ok { dX with secret := some (JVal.str "bad") }) =
        (Except.ok (Resp.error "Invalid secret"), []) ∧
    (generate_app cfgX wPostFail (Except.ok dX)).1 =
        Except.ok (Resp.error "Failed to post to evaluation_url after retries") ∧
    generate_app cfgNoAI wOK (Except.ok dX) =
        (Except.error (PyExn.valueError
          "Missing AI_PIPE_API_URL or AI_PIPE_API_KEY environment variables."), []) ∧
    (generate_app cfgX wNoRepo (Except.ok dX)).1 =
        Except.error (PyExn.ghError "422 name already exists") :=
  ⟨c4_amended_failures_reflected.2.1 cfgX wOK { dX with round := none }
     "round" rfl,
   c4_amended_failures_reflected.2.2.1 cfgX wOK
     { dX with secret := some (JVal.str "bad") } rfl rfl,
   c4_amended_failures_reflected.2.2.2.1 cfgX wPostFail dX codeX
     (full_prompt "a hello-world API") repoX rfl rfl rfl rfl rfl (fun _ => rfl),
   c4_amended_failures_reflected.2.2.2.2.1 cfgNoAI wOK dX
     (PyExn.valueError
       "Missing AI_PIPE_API_URL or AI_PIPE_API_KEY environment variables.")
     [] rfl rfl rfl,
   c4_amended_failures_reflected.2.2.2.2.2.1 cfgX wNoRepo dX codeX
     (full_prompt "a hello-world API") "422 name already exists" rfl rfl rfl
     (Or.inl rfl)⟩

end StudentApi
